import Mathlib

/-!
Shallow embedding of the survey-data pipeline: `importData` and the
`SurveyResults` scoring/statistics class of `survey_data.py`.

Python strings are modelled as Lean `String` (lists of characters); Python
lists as Lean `List`; the scoring dictionaries as association lists; Python
exceptions (`IndexError`, `KeyError`, `ValueError`) as an explicit error type
threaded through `Except`.  Machine integers do not occur (Python ints are
unbounded), so scores are plain `Int`.
-/

namespace Survey

/-- The Python exceptions that the pipeline can raise.
`indexError` models `IndexError` from out-of-range list indexing,
`keyError k` models `KeyError(k)` from a failed dictionary lookup,
`valueError m` models `ValueError` with message `m` from `int()` or
`datetime.strptime`. -/
inductive PyError where
  | indexError : PyError
  | keyError : String → PyError
  | valueError : String → PyError
deriving Repr, DecidableEq

/-- The user-visible message of the exception, as Python renders it:
`str(IndexError(...))` is "list index out of range", `str(KeyError(k))` is
the repr of the key, `str(ValueError(m))` is `m`. -/
def PyError.message : PyError → String
  | .indexError => "list index out of range"
  | .keyError k => "'" ++ k ++ "'"
  | .valueError m => m

/-- `listStarts p l` is true iff `p` is an initial run of `l`. -/
def listStarts : List Char → List Char → Bool
  | [], _ => true
  | _ :: _, [] => false
  | a :: p, b :: l => a == b && listStarts p l

/-- `listHasSub n h` is true iff `n` occurs contiguously inside `h`
(used to ask whether an error message mentions a given word). -/
def listHasSub (n : List Char) : List Char → Bool
  | [] => listStarts n []
  | c :: h => listStarts n (c :: h) || listHasSub n h

/-- `strHasSub n h`: the string `n` occurs as a contiguous substring of `h`. -/
def strHasSub (n h : String) : Bool := listHasSub n.data h.data

/-- Auxiliary for `pySplit`: walk the characters, cutting at every separator;
`acc` holds the (reversed) characters of the current piece. -/
def pySplitAux (sep : Char) : List Char → List Char → List String
  | [], acc => [String.mk acc.reverse]
  | c :: cs, acc =>
      if c == sep then String.mk acc.reverse :: pySplitAux sep cs []
      else pySplitAux sep cs (c :: acc)

/-- Python `s.split(sep)` for a one-character separator: every maximal piece
between separators, empty pieces included; never returns `[]`. -/
def pySplit (sep : Char) (s : String) : List String := pySplitAux sep s.data []

/-- Python `s.strip(chars)`: remove from both ends every character that is a
member of `cs`, stopping at the first character that is not. -/
def pyStrip (cs : List Char) (s : String) : String :=
  String.mk (((s.data.dropWhile (fun c => c ∈ cs)).reverse.dropWhile
      (fun c => c ∈ cs)).reverse)

/-- The numeric value of a decimal digit string (`none` if empty or if any
character is not a digit). -/
def pyDigits : List Char → Option Nat
  | [] => none
  | [c] => if c.isDigit then some (c.toNat - 48) else none
  | c :: cs =>
      if c.isDigit then
        (pyDigits cs).map (fun m => (c.toNat - 48) * 10 ^ cs.length + m)
      else none

/-- Python `int(s)`: surrounding whitespace is permitted, then an optional
sign, then a nonempty run of decimal digits; anything else raises
`ValueError`.  (Underscore digit grouping is not used by this input format
and is not modelled.) -/
def pyInt : String → Option Int := fun s =>
  match (pyStrip [' ', '\t', '\n', '\r'] s).data with
  | '-' :: cs => (pyDigits cs).map (fun n => -(n : Int))
  | '+' :: cs => (pyDigits cs).map (fun n => (n : Int))
  | cs => (pyDigits cs).map (fun n => (n : Int))

/-- Lift an `Option` to `Except`, raising `e` on `none`. -/
def toExcept (o : Option α) (e : PyError) : Except PyError α :=
  match o with
  | some a => .ok a
  | none => .error e

/-- Python list indexing `l[i]` (for nonnegative `i`): `IndexError` when the
index is out of range. -/
def pyIdx (l : List α) (i : Nat) : Except PyError α :=
  toExcept (l.get? i) .indexError

/-- Python dictionary indexing `d[k]`: `KeyError(k)` when the key is absent. -/
def pyLookup (d : List (String × Int)) (k : String) : Except PyError Int :=
  toExcept (d.lookup k) (.keyError k)

/-- The `ValueError` raised by `int(s)` on a bad literal. -/
def intError (s : String) : PyError :=
  .valueError ("invalid literal for int() with base 10: '" ++ s ++ "'")

/-- The `ValueError` raised by `datetime.strptime` on a mismatch. -/
def timeError (s : String) : PyError :=
  .valueError ("time data '" ++ s ++ "' does not match format '%B %d, %Y %H:%M'")

/-! ## The scoring dictionaries (lines 47-65 of `survey_data.py`) -/

/-- Income-bracket scoring dictionary `d_income`. -/
def d_income : List (String × Int) :=
  [("$10,000 or less", 0), ("$10,001 - $25,000", 1),
   ("$25,001 - $50,000", 2), ("$50,001 - $75,000", 3),
   ("$75,001 - $100,000", 4), ("$100,001 - $150,000", 5),
   ("$150,001 or more", 6)]

/-- Education-level scoring dictionary `d_education`. -/
def d_education : List (String × Int) :=
  [("Did not complete high school", 0), ("High school diploma", 1),
   ("Vocational School", 2), ("College degree", 3),
   ("Master's degree", 4),
   ("Higher degree (including doctorate or law degree)", 5)]

/-- Business-ownership scoring dictionary `d_business`. -/
def d_business : List (String × Int) :=
  [("No", 0), ("Self-employed (no other employees)", 1),
   ("Small business", 2),
   ("Mid-size business (or multiple small businesses, e.g. franchises)", 3),
   ("Large business", 4)]

/-- Rental-property scoring dictionary `d_rentals`. -/
def d_rentals : List (String × Int) :=
  [("No", 0), ("One or a few (e.g. renting a basement or old family home)", 1),
   ("Several homes, or a commercial property", 2),
   ("Many homes or commercial properties", 3)]

/-- Home-ownership scoring dictionary `d_homes`. -/
def d_homes : List (String × Int) :=
  [("No", 0), ("Single home", 1), ("Single home + vacation property", 2),
   ("Several homes or vacation properties", 3)]

/-- Policy-agreement scoring dictionary `d_policies`. -/
def d_policies : List (String × Int) :=
  [("Strongly disagree", -2), ("Disagree", -1), ("Neutral", 0),
   ("Agree", 1), ("Strongly Agree", 2)]

/-- Political-alignment scoring dictionary `d_politics`. -/
def d_politics : List (String × Int) :=
  [("Far-left", -2), ("Liberal", -1), ("Undecided", 0),
   ("Conservative", 1), ("Far-right", 2)]

/-! ## `datetime.strptime` with format `"%B %d, %Y %H:%M"` (line 82) -/

/-- The result of `datetime.strptime(s, "%B %d, %Y %H:%M")`: a calendar
date-time (seconds and finer are absent from the format and default to 0,
so they are omitted). -/
structure PyDateTime where
  year : Nat
  month : Nat
  day : Nat
  hour : Nat
  minute : Nat
deriving Repr, DecidableEq

/-- The English month names recognised by the `%B` directive, with their
month numbers. -/
def monthNames : List (String × Nat) :=
  [("January", 1), ("February", 2), ("March", 3), ("April", 4), ("May", 5),
   ("June", 6), ("July", 7), ("August", 8), ("September", 9), ("October", 10),
   ("November", 11), ("December", 12)]

/-- Match one of the month names as an initial run of `cs`, returning the
month number and the rest of the characters. -/
def matchMonth : List (String × Nat) → List Char → Option (Nat × List Char)
  | [], _ => none
  | (nm, m) :: rest, cs =>
      if listStarts nm.data cs then some (m, cs.drop nm.data.length)
      else matchMonth rest cs

/-- Expect the literal character `c` at the head of the input. -/
def expectChar (c : Char) : List Char → Option (List Char)
  | [] => none
  | x :: rest => if x == c then some rest else none

/-- Take up to `k` leading decimal digits (greedily, as the `\d{1,k}`
patterns that `_strptime` compiles its numeric directives to). -/
def takeDigitsUpTo : Nat → List Char → (List Char × List Char)
  | 0, cs => ([], cs)
  | _ + 1, [] => ([], [])
  | k + 1, c :: cs =>
      if c.isDigit then
        let (ds, rest) := takeDigitsUpTo k cs
        (c :: ds, rest)
      else ([], c :: cs)

/-- Read a numeric directive of at most `k` digits whose value lies in
`[lo, hi]`. -/
def readNum (k lo hi : Nat) (cs : List Char) : Option (Nat × List Char) := do
  let (ds, rest) := takeDigitsUpTo k cs
  let n ← pyDigits ds
  if lo ≤ n ∧ n ≤ hi then return (n, rest) else none

/-- Model of the external `datetime.strptime(s, "%B %d, %Y %H:%M")` call:
full English month name, day (1-2 digits, 1..31), `", "`, year (up to 4
digits), space, hour (1-2 digits, 0..23), `":"`, minute (1-2 digits, 0..59),
and nothing after; any mismatch (including unconsumed trailing text) raises
`ValueError`.  Literal whitespace in the input is modelled as exactly one
space, which is how every line of this fixed export format is written. -/
def strptimeBdYHM (s : String) : Option PyDateTime := do
  let cs := s.data
  let (m, cs) ← matchMonth monthNames cs
  let cs ← expectChar ' ' cs
  let (d, cs) ← readNum 2 1 31 cs
  let cs ← expectChar ',' cs
  let cs ← expectChar ' ' cs
  let (y, cs) ← readNum 4 0 9999 cs
  let cs ← expectChar ' ' cs
  let (h, cs) ← readNum 2 0 23 cs
  let cs ← expectChar ':' cs
  let (mi, cs) ← readNum 2 0 59 cs
  if cs = [] then return ⟨y, m, d, h, mi⟩ else none

/-! ## One parsed record (the per-line body of the `while` loop, lines 71-127) -/

/-- The thirteen per-respondent values that one loop iteration appends to
the thirteen lists of `data`. -/
structure ScoredRecord where
  entry : Int
  response_time : PyDateTime
  subjective_SES : Int
  income : Int
  education : Int
  businesses : Int
  rentals : Int
  homes : Int
  policy_1 : Int
  policy_2 : Int
  policy_3 : Int
  policy_4 : Int
  politics : Int
deriving Repr, DecidableEq

/-- Lines 77-78: `split_quote[0].strip('#,')` then `int(...)`. -/
def parseEntry (s0 : String) : Except PyError Int :=
  toExcept (pyInt (pyStrip ['#', ','] s0)) (intError (pyStrip ['#', ','] s0))

/-- Lines 86-92: the cleaned subjective-SES text — the two boundary
literals are special-cased, otherwise the characters of `' ,/10'` are
stripped from both ends. -/
def subjValue (s2 : String) : String :=
  if s2 = ",1 / 10," then "1"
  else if s2 = ",10 / 10," then "10"
  else pyStrip [' ', ',', '/', '1', '0'] s2

/-- Line 93: `int(subjective_SES)` on the cleaned text. -/
def parseSubjective (s2 : String) : Except PyError Int :=
  toExcept (pyInt (subjValue s2)) (intError (subjValue s2))

/-- The body of the `while` loop (lines 71-127), applied to the result of
`line.split('"')`.  Steps are performed in source order, so the first
failing step determines the exception. -/
def parseSegs (split_quote : List String) : Except PyError ScoredRecord := do
  let s4 ← pyIdx split_quote 4
  let split_comma := (pySplit ',' s4).drop 1
  let s0 ← pyIdx split_quote 0
  let entry ← parseEntry s0
  let s1 ← pyIdx split_quote 1
  let response_time ← toExcept (strptimeBdYHM s1) (timeError s1)
  let s2 ← pyIdx split_quote 2
  let subjective_SES ← parseSubjective s2
  let s3 ← pyIdx split_quote 3
  let income ← pyLookup d_income s3
  let c0 ← pyIdx split_comma 0
  let education ← pyLookup d_education c0
  let c1 ← pyIdx split_comma 1
  let businesses ← pyLookup d_business c1
  let c2 ← pyIdx split_comma 2
  let rentals ← pyLookup d_rentals c2
  let c3 ← pyIdx split_comma 3
  let homes ← pyLookup d_homes c3
  let c4 ← pyIdx split_comma 4
  let policy_1 ← pyLookup d_policies c4
  let c5 ← pyIdx split_comma 5
  let policy_2 ← pyLookup d_policies c5
  let c6 ← pyIdx split_comma 6
  let policy_3 ← pyLookup d_policies c6
  let c7 ← pyIdx split_comma 7
  let policy_4raw ← pyLookup d_policies c7
  let policy_4 := -policy_4raw
  let c8 ← pyIdx split_comma 8
  let politics ← pyLookup d_politics (pyStrip ['\n'] c8)
  return ⟨entry, response_time, subjective_SES, income, education, businesses,
          rentals, homes, policy_1, policy_2, policy_3, policy_4, politics⟩

/-- One full line: `line.split('"')` (line 71) followed by the loop body. -/
def parseLine (line : String) : Except PyError ScoredRecord :=
  parseSegs (pySplit '"' line)

/-- The `while` loop over all lines: abort with the first line's exception,
otherwise collect every line's record in order. -/
def parseAll : List String → Except PyError (List ScoredRecord)
  | [] => .ok []
  | l :: ls => do
      let r ← parseLine l
      let rs ← parseAll ls
      return r :: rs

/-- The dictionary of thirteen parallel lists that `importData` returns. -/
structure SurveyData where
  entry : List Int
  response_time : List PyDateTime
  subjective_SES : List Int
  income : List Int
  education : List Int
  businesses : List Int
  rentals : List Int
  homes : List Int
  policy_1 : List Int
  policy_2 : List Int
  policy_3 : List Int
  policy_4 : List Int
  politics : List Int
deriving Repr, DecidableEq

/-- Assemble the thirteen parallel lists from the per-line records (the
cumulative effect of the thirteen `append` calls of each iteration). -/
def buildData (rs : List ScoredRecord) : SurveyData :=
  ⟨rs.map (·.entry), rs.map (·.response_time), rs.map (·.subjective_SES),
   rs.map (·.income), rs.map (·.education), rs.map (·.businesses),
   rs.map (·.rentals), rs.map (·.homes), rs.map (·.policy_1),
   rs.map (·.policy_2), rs.map (·.policy_3), rs.map (·.policy_4),
   rs.map (·.politics)⟩

/-- `importData` (lines 14-131) on the list of lines read from the file:
either the full dictionary of parallel lists, or the exception raised by
the first bad line (the partially filled dictionary is lost when the
exception propagates). -/
def importData (lines : List String) : Except PyError SurveyData :=
  (parseAll lines).map buildData

/-- Propositional equality on `Except` is decidable componentwise (needed to
`decide` concrete parser runs). -/
instance {ε α : Type} [DecidableEq ε] [DecidableEq α] : DecidableEq (Except ε α)
  | .error e, .error f =>
      if h : e = f then .isTrue (by rw [h])
      else .isFalse (by intro c; cases c; exact h rfl)
  | .error _, .ok _ => .isFalse (by intro c; cases c)
  | .ok _, .error _ => .isFalse (by intro c; cases c)
  | .ok a, .ok b =>
      if h : a = b then .isTrue (by rw [h])
      else .isFalse (by intro c; cases c; exact h rfl)

/-- Outcome of a whole `importData` call including the state of the file
handle opened at line 67: `f.close()` (line 130) runs only when the loop
exits normally; an exception raised inside the loop propagates out of the
function first, so the handle is still open. -/
structure RunOutcome where
  result : Except PyError SurveyData
  fileClosed : Bool
deriving Repr, DecidableEq

/-- `importData` together with the fate of its file handle: there is no
`try/finally` or `with` block in the source, so the handle is closed
exactly on the non-exceptional path. -/
def importDataFile (lines : List String) : RunOutcome :=
  match importData lines with
  | .ok d => ⟨.ok d, true⟩
  | .error e => ⟨.error e, false⟩

/-! ## The `SurveyResults` class (lines 133-174): composite indices -/

/-- Elementwise `+` of two equal-length numpy integer arrays, as produced by
`pylab.array` addition in `SurveyResults.__init__` (Python ints are exact;
the dataset invariant keeps the lengths equal, so no broadcasting occurs). -/
def arrAdd (xs ys : List Int) : List Int := List.zipWith (· + ·) xs ys

/-- The fields of a constructed `SurveyResults` object that the claims are
about: the thirteen copied sequences and the three composite indices. -/
structure SurveyResults where
  entries : List Int
  response_time : List PyDateTime
  subjective_scores : List Int
  income : List Int
  education : List Int
  objective_scores : List Int
  businesses : List Int
  rentals : List Int
  homes : List Int
  property_scores : List Int
  policy_1 : List Int
  policy_2 : List Int
  policy_3 : List Int
  policy_4 : List Int
  policy_scores : List Int
  politics : List Int
deriving Repr, DecidableEq

/-- `SurveyResults.__init__` (lines 134-174): copies the thirteen sequences
and derives the three composite indices by elementwise summation
(`objective = income + education`, `property = businesses + rentals +
homes`, `policy = policy_1 + policy_2 + policy_3 + policy_4`, the `+` of
numpy arrays associating to the left). -/
def SurveyResults.init (data : SurveyData) : SurveyResults :=
  { entries := data.entry
    response_time := data.response_time
    subjective_scores := data.subjective_SES
    income := data.income
    education := data.education
    objective_scores := arrAdd data.income data.education
    businesses := data.businesses
    rentals := data.rentals
    homes := data.homes
    property_scores := arrAdd (arrAdd data.businesses data.rentals) data.homes
    policy_1 := data.policy_1
    policy_2 := data.policy_2
    policy_3 := data.policy_3
    policy_4 := data.policy_4
    policy_scores :=
      arrAdd (arrAdd (arrAdd data.policy_1 data.policy_2) data.policy_3)
        data.policy_4
    politics := data.politics }

/-- The raw policy-question-4 answer text of a line: token 7 of the
comma-split of quote-segment 4 after the leading empty token is discarded
(`split_comma[7]` at line 120). -/
def policy4Token (line : String) : Option String :=
  ((pySplit '"' line)[4]?).bind fun s4 => ((pySplit ',' s4).drop 1)[7]?

/-! ## `singleVariableStats` (lines 302-309) and its scipy collaborator -/

/-- The value domain of the statistics path: floating-point results are
exact rationals here except for the two shapes the claims need —
`sqrtOf q` stands for the irrational `q ** 0.5` (its numeric value is
never inspected), and `nan` is IEEE nan. -/
inductive PyFloat where
  | rat : ℚ → PyFloat
  | sqrtOf : ℚ → PyFloat
  | nan : PyFloat
deriving Repr, DecidableEq

/-- Python `x ** 0.5` on this value domain (`nan ** 0.5` is `nan`; it is
only ever applied to `rat` and `nan` values here). -/
def PyFloat.powHalf : PyFloat → PyFloat
  | .rat q => .sqrtOf q
  | .sqrtOf q => .sqrtOf q
  | .nan => .nan

/-- Model of the external collaborator `scipy.stats.describe` (with its
default Bessel correction `ddof=1`), restricted to the components the
source reads (`s[1]`, `s[2]`, `s[3]`): on an empty array it raises
`ValueError("The input must not be empty.")`; otherwise it returns
`(min, max)`, the arithmetic mean, and the sample variance
`Σ (x - mean)² / (n - 1)` — which for a single observation divides by
zero and is numpy's `nan`, a warning but not an exception. -/
def describe (xs : List Int) : Except PyError ((Int × Int) × ℚ × PyFloat) :=
  match xs with
  | [] => .error (.valueError "The input must not be empty.")
  | x :: t =>
      let n := xs.length
      let mean : ℚ := (xs.sum : ℚ) / (n : ℚ)
      let variance : PyFloat :=
        if n = 1 then .nan
        else .rat ((xs.map (fun v => ((v : ℚ) - mean) ^ 2)).sum / ((n : ℚ) - 1))
      .ok ((t.foldl min x, t.foldl max x), mean, variance)

/-- `SurveyResults.singleVariableStats` (lines 302-309): `stats.describe`,
then `std_dev = variance ** 0.5`; returns `(minmax, mean, std_dev)`. -/
def singleVariableStats (xs : List Int) :
    Except PyError ((Int × Int) × ℚ × PyFloat) :=
  (describe xs).map fun (minmax, mean, variance) =>
    (minmax, mean, variance.powHalf)

/-! ## Concrete inputs used by the witnesses and counterexamples -/

/-- A well-formed input line: entry 1, income bracket
`$50,001 - $75,000`, education `College degree`, no property, policy
answers Agree/Agree/Agree/Strongly Agree, politics Liberal. -/
def sampleLine : String :=
  "#1,\"July 12, 2021 09:41\",7 / 10,\"$50,001 - $75,000\",College degree,No,No,No,Agree,Agree,Agree,Strongly Agree,Liberal\n"

/-- The record that `parseLine sampleLine` produces. -/
def sampleRec : ScoredRecord :=
  ⟨1, ⟨2021, 7, 12, 9, 41⟩, 7, 3, 3, 0, 0, 0, 1, 1, 1, -2, -1⟩

/-- The dataset of the one-line file `[sampleLine]`. -/
def sampleData : SurveyData := buildData [sampleRec]

/-- A line whose income field reads `Unspecified`, which is absent from
`d_income`. -/
def unspecifiedIncomeLine : String :=
  "#2,\"July 12, 2021 09:41\",7 / 10,\"Unspecified\",College degree,No,No,No,Agree,Agree,Agree,Agree,Liberal\n"

/-- A line whose education field reads `Unknown`, which is absent from
`d_education` (its income field is valid). -/
def unknownEducationLine : String :=
  "#7,\"July 12, 2021 09:41\",7 / 10,\"$10,000 or less\",Unknown,No,No,No,Agree,Agree,Agree,Agree,Liberal\n"

/-- A line whose subjective-status segment is `,23 / 10,`: the stripping
step leaves the residue `23`, outside 1..10. -/
def outOfRangeLine : String :=
  "#3,\"July 12, 2021 09:41\",23 / 10,\"$10,000 or less\",College degree,No,No,No,Agree,Agree,Agree,Agree,Liberal\n"

/-- The record that `parseLine outOfRangeLine` produces — its
subjective-status value is 23. -/
def outOfRangeRec : ScoredRecord :=
  ⟨3, ⟨2021, 7, 12, 9, 41⟩, 23, 0, 3, 0, 0, 0, 1, 1, 1, -1, -1⟩

/-- A line whose subjective-status segment is `,x / 10,`: the stripping
step leaves the non-numeric residue `x`. -/
def nonNumericLine : String :=
  "#6,\"July 12, 2021 09:41\",x / 10,\"$10,000 or less\",College degree,No,No,No,Agree,Agree,Agree,Agree,Liberal\n"

/-- A line whose quote-split yields 7 segments: a sixth, quoted field
`"extra"` follows the politics answer. -/
def extraSegmentsLine : String :=
  "#4,\"July 12, 2021 09:41\",7 / 10,\"$10,000 or less\",College degree,No,No,No,Agree,Agree,Agree,Agree,Liberal,\"extra\"\n"

/-- The record that `parseLine extraSegmentsLine` produces (segments 5 and
6 are ignored). -/
def extraSegmentsRec : ScoredRecord :=
  ⟨4, ⟨2021, 7, 12, 9, 41⟩, 7, 0, 3, 0, 0, 0, 1, 1, 1, -1, -1⟩

/-- A line with no quote character at all: its quote-split is a single
segment. -/
def noQuoteLine : String := "#5,no quotes here\n"

/-! ## Helper lemmas -/

lemma toExcept_eq_ok {α : Type} {o : Option α} {e : PyError} {a : α} :
    toExcept o e = .ok a ↔ o = some a := by
  cases o <;> simp [toExcept]

lemma bindOk {α β : Type} {e : Except PyError α} {f : α → Except PyError β}
    {b : β} (h : e >>= f = .ok b) : ∃ a, e = .ok a ∧ f a = .ok b := by
  cases e <;> simp_all [Bind.bind, Except.bind]

lemma importData_ok {lines : List String} {d : SurveyData}
    (h : importData lines = .ok d) :
    ∃ rs, parseAll lines = .ok rs ∧ d = buildData rs := by
  unfold importData at h
  cases hp : parseAll lines with
  | error e => rw [hp] at h; simp [Except.map] at h
  | ok rs => rw [hp] at h; simp [Except.map] at h; exact ⟨rs, rfl, h.symm⟩

lemma parseAll_ok_length : ∀ {ls : List String} {rs : List ScoredRecord},
    parseAll ls = .ok rs → rs.length = ls.length := by
  intro ls
  induction ls with
  | nil =>
      intro rs h
      simp only [parseAll] at h
      cases h
      rfl
  | cons l ls ih =>
      intro rs h
      unfold parseAll at h
      obtain ⟨r, hr, h⟩ := bindOk h
      obtain ⟨rs', hrs, h⟩ := bindOk h
      simp only [pure, Except.pure, Except.ok.injEq] at h
      subst h
      simp [ih hrs]

lemma parseAll_ok_get : ∀ {ls : List String} {rs : List ScoredRecord},
    parseAll ls = .ok rs → ∀ {i : Nat} {line : String}, ls[i]? = some line →
    ∃ r, rs[i]? = some r ∧ parseLine line = .ok r := by
  intro ls
  induction ls with
  | nil => intro rs _ i line hl; simp at hl
  | cons l ls ih =>
      intro rs h i line hl
      unfold parseAll at h
      obtain ⟨r, hr, h⟩ := bindOk h
      obtain ⟨rs', hrs, h⟩ := bindOk h
      simp only [pure, Except.pure, Except.ok.injEq] at h
      subst h
      cases i with
      | zero =>
          simp only [List.getElem?_cons_zero, Option.some.injEq] at hl
          subst hl
          exact ⟨r, by simp, hr⟩
      | succ i =>
          simp only [List.getElem?_cons_succ] at hl ⊢
          exact ih hrs hl

lemma parseSegs_ok_policy4 {segs : List String} {r : ScoredRecord}
    (h : parseSegs segs = .ok r) :
    ∃ s4, segs[4]? = some s4 ∧
    ∃ c7, ((pySplit ',' s4).drop 1)[7]? = some c7 ∧
    ∃ v, d_policies.lookup c7 = some v ∧ r.policy_4 = -v := by
  unfold parseSegs at h
  obtain ⟨s4, e4, h⟩ := bindOk h
  obtain ⟨s0, e0, h⟩ := bindOk h
  obtain ⟨entry, he, h⟩ := bindOk h
  obtain ⟨s1, e1, h⟩ := bindOk h
  obtain ⟨rt, ht, h⟩ := bindOk h
  obtain ⟨s2, e2, h⟩ := bindOk h
  obtain ⟨subj, hs, h⟩ := bindOk h
  obtain ⟨s3, e3, h⟩ := bindOk h
  obtain ⟨inc, hi, h⟩ := bindOk h
  obtain ⟨c0, ec0, h⟩ := bindOk h
  obtain ⟨edu, hedu, h⟩ := bindOk h
  obtain ⟨c1, ec1, h⟩ := bindOk h
  obtain ⟨bus, hbus, h⟩ := bindOk h
  obtain ⟨c2, ec2, h⟩ := bindOk h
  obtain ⟨ren, hren, h⟩ := bindOk h
  obtain ⟨c3, ec3, h⟩ := bindOk h
  obtain ⟨hom, hhom, h⟩ := bindOk h
  obtain ⟨c4, ec4, h⟩ := bindOk h
  obtain ⟨p1, hp1, h⟩ := bindOk h
  obtain ⟨c5, ec5, h⟩ := bindOk h
  obtain ⟨p2, hp2, h⟩ := bindOk h
  obtain ⟨c6, ec6, h⟩ := bindOk h
  obtain ⟨p3, hp3, h⟩ := bindOk h
  obtain ⟨c7, ec7, h⟩ := bindOk h
  obtain ⟨p4raw, hp4, h⟩ := bindOk h
  obtain ⟨c8, ec8, h⟩ := bindOk h
  obtain ⟨pol, hpol, h⟩ := bindOk h
  simp only [pure, Except.pure, Except.ok.injEq] at h
  refine ⟨s4, ?_, c7, ?_, p4raw, ?_, ?_⟩
  · have := toExcept_eq_ok.mp e4
    simpa [List.get?_eq_getElem?] using this
  · have := toExcept_eq_ok.mp ec7
    simpa [List.get?_eq_getElem?] using this
  · exact toExcept_eq_ok.mp hp4
  · rw [← h]

/-! ## The claims -/

/-- C1, as stated, is false on the code: on the sample line whose income
field is `$50,001 - $75,000` and whose education field is `College degree`,
`d_income` assigns income score 3, not 2, so the objective-status composite
is 6, not 5. -/
theorem c1_counterexample :
    importData [sampleLine] = .ok sampleData ∧
    sampleData.income ≠ [2] ∧
    (SurveyResults.init sampleData).objective_scores ≠ [5] := by
  decide

/-- C1 (amended): for an input line whose income field is the exact text
`$50,001 - $75,000` and whose education field is `College degree`, parsing
assigns income score 3 and education score 3, so the objective-status
composite index for that record equals 6. -/
theorem c1_objective_composite :
    importData [sampleLine] = .ok sampleData ∧
    sampleData.income = [3] ∧ sampleData.education = [3] ∧
    (SurveyResults.init sampleData).objective_scores = [6] := by
  decide

/-- C2: for every dataset returned by a load, the three composite indices
are the exact elementwise integer sums of their constituent sequences
(objective = income + education, property = businesses + rentals + homes,
policy = policy_1 + policy_2 + policy_3 + policy_4), and the stored
policy-question-4 sequence entry of every record is the negation of the
scoring-table value of that line's policy-question-4 answer — so an answer
of `Strongly Agree` (table value 2) contributes exactly -2. -/
theorem c2_composites (lines : List String) (d : SurveyData)
    (h : importData lines = .ok d) :
    ((SurveyResults.init d).objective_scores =
        List.zipWith (· + ·) d.income d.education ∧
     (SurveyResults.init d).property_scores =
        List.zipWith (· + ·) (List.zipWith (· + ·) d.businesses d.rentals)
          d.homes ∧
     (SurveyResults.init d).policy_scores =
        List.zipWith (· + ·)
          (List.zipWith (· + ·) (List.zipWith (· + ·) d.policy_1 d.policy_2)
            d.policy_3) d.policy_4) ∧
    ∀ (i : Nat) (line a : String) (v : Int),
      lines[i]? = some line → policy4Token line = some a →
      d_policies.lookup a = some v → d.policy_4[i]? = some (-v) := by
  obtain ⟨rs, hp, hd⟩ := importData_ok h
  subst hd
  refine ⟨⟨rfl, rfl, rfl⟩, ?_⟩
  intro i line a v hline htok hlook
  obtain ⟨r, hri, hr⟩ := parseAll_ok_get hp hline
  obtain ⟨s4, hs4, c7, hc7, v', hv', hp4⟩ := parseSegs_ok_policy4 hr
  have ha : a = c7 := by
    unfold policy4Token at htok
    rw [hs4, Option.some_bind, hc7] at htok
    exact ((Option.some.injEq _ _).mp htok).symm
  subst ha
  have hv : v = v' := by
    rw [hlook] at hv'
    exact (Option.some.injEq _ _).mp hv'
  subst hv
  show (List.map (·.policy_4) rs)[i]? = some (-v)
  rw [List.getElem?_map, hri]
  simp [hp4]

/-- C2 witness: on the one-line file `[sampleLine]`, whose
policy-question-4 answer is `Strongly Agree` (table value 2), the stored
policy-question-4 sequence entry is -2. -/
theorem c2_composites_witness :
    importData [sampleLine] = .ok sampleData ∧
    sampleData.policy_4[0]? = some (-2) :=
  ⟨by decide,
   (c2_composites [sampleLine] sampleData (by decide)).2 0 sampleLine
     "Strongly Agree" 2 (by decide) (by decide) (by decide)⟩

/-- C3: for every N in 1..10, a subjective-status segment whose exact text
is `,N / 10,` parses to the integer N (the boundary literals `,1 / 10,`
and `,10 / 10,` via their special cases), and for N in 2..9 the generic
stripping of the characters space, comma, `/`, `1`, `0` from both ends
leaves exactly the digit of N. -/
theorem c3_subjective_boundaries (n : Nat) (h1 : 1 ≤ n) (h2 : n ≤ 10) :
    parseSubjective ("," ++ toString n ++ " / 10,") = .ok (n : Int) ∧
    (2 ≤ n → n ≤ 9 →
      subjValue ("," ++ toString n ++ " / 10,") = toString n) := by
  interval_cases n <;> exact ⟨by decide, by decide⟩

/-- C3 witness: the boundary literal `,10 / 10,` parses to 10. -/
theorem c3_subjective_boundaries_witness :
    (1 ≤ 10 ∧ 10 ≤ 10) ∧
    parseSubjective ("," ++ toString 10 ++ " / 10,") = .ok (10 : Int) :=
  ⟨by decide, (c3_subjective_boundaries 10 (by decide) (by decide)).1⟩

/-- C4, as stated, is false on the code: on the line whose income field
reads `Unspecified`, parsing does fail, but with a bare `KeyError` whose
message is only the quoted offending text — it does not name the field
`income`. -/
theorem c4_counterexample :
    parseLine unspecifiedIncomeLine = .error (.keyError "Unspecified") ∧
    strHasSub "Unspecified"
      (PyError.keyError "Unspecified").message = true ∧
    strHasSub "income" (PyError.keyError "Unspecified").message = false := by
  decide

/-- C4 (amended): for every input line containing a categorical field
whose text is absent from that field's scoring table (the earlier fields
of the line parsing successfully), parsing that record fails with a
generic `KeyError` carrying only the offending text — the field name is
not part of the error; the field is never defaulted to 0 and never
silently skipped.  One conjunct per categorical lookup, in the source's
order: income, education, business, rentals, homes, policy 1-4, political
alignment (whose text is first stripped of its newline). -/
theorem c4_invalid_category (segs : List String)
    (s4 s0 s1 s2 s3 c0 c1 c2 c3 c4 c5 c6 c7 c8 : String)
    (h4 : segs[4]? = some s4) (h0 : segs[0]? = some s0)
    (h1 : segs[1]? = some s1) (h2 : segs[2]? = some s2)
    (h3 : segs[3]? = some s3)
    (hc0 : ((pySplit ',' s4).drop 1)[0]? = some c0)
    (hc1 : ((pySplit ',' s4).drop 1)[1]? = some c1)
    (hc2 : ((pySplit ',' s4).drop 1)[2]? = some c2)
    (hc3 : ((pySplit ',' s4).drop 1)[3]? = some c3)
    (hc4 : ((pySplit ',' s4).drop 1)[4]? = some c4)
    (hc5 : ((pySplit ',' s4).drop 1)[5]? = some c5)
    (hc6 : ((pySplit ',' s4).drop 1)[6]? = some c6)
    (hc7 : ((pySplit ',' s4).drop 1)[7]? = some c7)
    (hc8 : ((pySplit ',' s4).drop 1)[8]? = some c8)
    (he : (pyInt (pyStrip ['#', ','] s0)).isSome = true)
    (ht : (strptimeBdYHM s1).isSome = true)
    (hs : (pyInt (subjValue s2)).isSome = true) :
    (d_income.lookup s3 = none →
      parseSegs segs = .error (.keyError s3)) ∧
    (d_income.lookup s3 ≠ none →
      d_education.lookup c0 = none →
      parseSegs segs = .error (.keyError c0)) ∧
    (d_income.lookup s3 ≠ none → d_education.lookup c0 ≠ none →
      d_business.lookup c1 = none →
      parseSegs segs = .error (.keyError c1)) ∧
    (d_income.lookup s3 ≠ none → d_education.lookup c0 ≠ none →
      d_business.lookup c1 ≠ none →
      d_rentals.lookup c2 = none →
      parseSegs segs = .error (.keyError c2)) ∧
    (d_income.lookup s3 ≠ none → d_education.lookup c0 ≠ none →
      d_business.lookup c1 ≠ none → d_rentals.lookup c2 ≠ none →
      d_homes.lookup c3 = none →
      parseSegs segs = .error (.keyError c3)) ∧
    (d_income.lookup s3 ≠ none → d_education.lookup c0 ≠ none →
      d_business.lookup c1 ≠ none → d_rentals.lookup c2 ≠ none →
      d_homes.lookup c3 ≠ none →
      d_policies.lookup c4 = none →
      parseSegs segs = .error (.keyError c4)) ∧
    (d_income.lookup s3 ≠ none → d_education.lookup c0 ≠ none →
      d_business.lookup c1 ≠ none → d_rentals.lookup c2 ≠ none →
      d_homes.lookup c3 ≠ none → d_policies.lookup c4 ≠ none →
      d_policies.lookup c5 = none →
      parseSegs segs = .error (.keyError c5)) ∧
    (d_income.lookup s3 ≠ none → d_education.lookup c0 ≠ none →
      d_business.lookup c1 ≠ none → d_rentals.lookup c2 ≠ none →
      d_homes.lookup c3 ≠ none → d_policies.lookup c4 ≠ none →
      d_policies.lookup c5 ≠ none →
      d_policies.lookup c6 = none →
      parseSegs segs = .error (.keyError c6)) ∧
    (d_income.lookup s3 ≠ none → d_education.lookup c0 ≠ none →
      d_business.lookup c1 ≠ none → d_rentals.lookup c2 ≠ none →
      d_homes.lookup c3 ≠ none → d_policies.lookup c4 ≠ none →
      d_policies.lookup c5 ≠ none → d_policies.lookup c6 ≠ none →
      d_policies.lookup c7 = none →
      parseSegs segs = .error (.keyError c7)) ∧
    (d_income.lookup s3 ≠ none → d_education.lookup c0 ≠ none →
      d_business.lookup c1 ≠ none → d_rentals.lookup c2 ≠ none →
      d_homes.lookup c3 ≠ none → d_policies.lookup c4 ≠ none →
      d_policies.lookup c5 ≠ none → d_policies.lookup c6 ≠ none →
      d_policies.lookup c7 ≠ none →
      d_politics.lookup (pyStrip ['\n'] c8) = none →
      parseSegs segs = .error (.keyError (pyStrip ['\n'] c8))) := by
  obtain ⟨n, hn⟩ := Option.isSome_iff_exists.mp he
  obtain ⟨t, htt⟩ := Option.isSome_iff_exists.mp ht
  obtain ⟨m, hm⟩ := Option.isSome_iff_exists.mp hs
  have hc0' := hc0
  have hc1' := hc1
  have hc2' := hc2
  have hc3' := hc3
  have hc4' := hc4
  have hc5' := hc5
  have hc6' := hc6
  have hc7' := hc7
  have hc8' := hc8
  simp at hc0' hc1' hc2' hc3' hc4' hc5' hc6' hc7' hc8'
  refine ⟨?_, ?_, ?_, ?_, ?_, ?_, ?_, ?_, ?_, ?_⟩
  · intro hki
    unfold parseSegs
    simp [pyIdx, pyLookup, parseEntry, parseSubjective, toExcept,
      List.get?_eq_getElem?, h4, h0, h1, h2, h3, hn, htt, hm, hki,
      Bind.bind, Except.bind]
  · intro hi hke
    obtain ⟨vi, hvi⟩ := Option.ne_none_iff_exists'.mp hi
    unfold parseSegs
    simp [pyIdx, pyLookup, parseEntry, parseSubjective, toExcept,
      List.get?_eq_getElem?, h4, h0, h1, h2, h3, hn, htt, hm, hvi,
      hc0', hke, Bind.bind, Except.bind]
  · intro hi h0' hkb
    obtain ⟨vi, hvi⟩ := Option.ne_none_iff_exists'.mp hi
    obtain ⟨v0, hv0⟩ := Option.ne_none_iff_exists'.mp h0'
    unfold parseSegs
    simp [pyIdx, pyLookup, parseEntry, parseSubjective, toExcept,
      List.get?_eq_getElem?, h4, h0, h1, h2, h3, hn, htt, hm, hvi,
      hc0', hv0, hc1', hkb, Bind.bind, Except.bind]
  · intro hi h0' h1' hkr
    obtain ⟨vi, hvi⟩ := Option.ne_none_iff_exists'.mp hi
    obtain ⟨v0, hv0⟩ := Option.ne_none_iff_exists'.mp h0'
    obtain ⟨v1, hv1⟩ := Option.ne_none_iff_exists'.mp h1'
    unfold parseSegs
    simp [pyIdx, pyLookup, parseEntry, parseSubjective, toExcept,
      List.get?_eq_getElem?, h4, h0, h1, h2, h3, hn, htt, hm, hvi,
      hc0', hv0, hc1', hv1, hc2', hkr, Bind.bind, Except.bind]
  · intro hi h0' h1' h2' hkh
    obtain ⟨vi, hvi⟩ := Option.ne_none_iff_exists'.mp hi
    obtain ⟨v0, hv0⟩ := Option.ne_none_iff_exists'.mp h0'
    obtain ⟨v1, hv1⟩ := Option.ne_none_iff_exists'.mp h1'
    obtain ⟨v2, hv2⟩ := Option.ne_none_iff_exists'.mp h2'
    unfold parseSegs
    simp [pyIdx, pyLookup, parseEntry, parseSubjective, toExcept,
      List.get?_eq_getElem?, h4, h0, h1, h2, h3, hn, htt, hm, hvi,
      hc0', hv0, hc1', hv1, hc2', hv2, hc3', hkh, Bind.bind, Except.bind]
  · intro hi h0' h1' h2' h3' hk1
    obtain ⟨vi, hvi⟩ := Option.ne_none_iff_exists'.mp hi
    obtain ⟨v0, hv0⟩ := Option.ne_none_iff_exists'.mp h0'
    obtain ⟨v1, hv1⟩ := Option.ne_none_iff_exists'.mp h1'
    obtain ⟨v2, hv2⟩ := Option.ne_none_iff_exists'.mp h2'
    obtain ⟨v3, hv3⟩ := Option.ne_none_iff_exists'.mp h3'
    unfold parseSegs
    simp [pyIdx, pyLookup, parseEntry, parseSubjective, toExcept,
      List.get?_eq_getElem?, h4, h0, h1, h2, h3, hn, htt, hm, hvi,
      hc0', hv0, hc1', hv1, hc2', hv2, hc3', hv3, hc4', hk1,
      Bind.bind, Except.bind]
  · intro hi h0' h1' h2' h3' h4' hk2
    obtain ⟨vi, hvi⟩ := Option.ne_none_iff_exists'.mp hi
    obtain ⟨v0, hv0⟩ := Option.ne_none_iff_exists'.mp h0'
    obtain ⟨v1, hv1⟩ := Option.ne_none_iff_exists'.mp h1'
    obtain ⟨v2, hv2⟩ := Option.ne_none_iff_exists'.mp h2'
    obtain ⟨v3, hv3⟩ := Option.ne_none_iff_exists'.mp h3'
    obtain ⟨v4, hv4⟩ := Option.ne_none_iff_exists'.mp h4'
    unfold parseSegs
    simp [pyIdx, pyLookup, parseEntry, parseSubjective, toExcept,
      List.get?_eq_getElem?, h4, h0, h1, h2, h3, hn, htt, hm, hvi,
      hc0', hv0, hc1', hv1, hc2', hv2, hc3', hv3, hc4', hv4, hc5', hk2,
      Bind.bind, Except.bind]
  · intro hi h0' h1' h2' h3' h4' h5' hk3
    obtain ⟨vi, hvi⟩ := Option.ne_none_iff_exists'.mp hi
    obtain ⟨v0, hv0⟩ := Option.ne_none_iff_exists'.mp h0'
    obtain ⟨v1, hv1⟩ := Option.ne_none_iff_exists'.mp h1'
    obtain ⟨v2, hv2⟩ := Option.ne_none_iff_exists'.mp h2'
    obtain ⟨v3, hv3⟩ := Option.ne_none_iff_exists'.mp h3'
    obtain ⟨v4, hv4⟩ := Option.ne_none_iff_exists'.mp h4'
    obtain ⟨v5, hv5⟩ := Option.ne_none_iff_exists'.mp h5'
    unfold parseSegs
    simp [pyIdx, pyLookup, parseEntry, parseSubjective, toExcept,
      List.get?_eq_getElem?, h4, h0, h1, h2, h3, hn, htt, hm, hvi,
      hc0', hv0, hc1', hv1, hc2', hv2, hc3', hv3, hc4', hv4, hc5', hv5,
      hc6', hk3, Bind.bind, Except.bind]
  · intro hi h0' h1' h2' h3' h4' h5' h6' hk4
    obtain ⟨vi, hvi⟩ := Option.ne_none_iff_exists'.mp hi
    obtain ⟨v0, hv0⟩ := Option.ne_none_iff_exists'.mp h0'
    obtain ⟨v1, hv1⟩ := Option.ne_none_iff_exists'.mp h1'
    obtain ⟨v2, hv2⟩ := Option.ne_none_iff_exists'.mp h2'
    obtain ⟨v3, hv3⟩ := Option.ne_none_iff_exists'.mp h3'
    obtain ⟨v4, hv4⟩ := Option.ne_none_iff_exists'.mp h4'
    obtain ⟨v5, hv5⟩ := Option.ne_none_iff_exists'.mp h5'
    obtain ⟨v6, hv6⟩ := Option.ne_none_iff_exists'.mp h6'
    unfold parseSegs
    simp [pyIdx, pyLookup, parseEntry, parseSubjective, toExcept,
      List.get?_eq_getElem?, h4, h0, h1, h2, h3, hn, htt, hm, hvi,
      hc0', hv0, hc1', hv1, hc2', hv2, hc3', hv3, hc4', hv4, hc5', hv5,
      hc6', hv6, hc7', hk4, Bind.bind, Except.bind]
  · intro hi h0' h1' h2' h3' h4' h5' h6' h7' hkp
    obtain ⟨vi, hvi⟩ := Option.ne_none_iff_exists'.mp hi
    obtain ⟨v0, hv0⟩ := Option.ne_none_iff_exists'.mp h0'
    obtain ⟨v1, hv1⟩ := Option.ne_none_iff_exists'.mp h1'
    obtain ⟨v2, hv2⟩ := Option.ne_none_iff_exists'.mp h2'
    obtain ⟨v3, hv3⟩ := Option.ne_none_iff_exists'.mp h3'
    obtain ⟨v4, hv4⟩ := Option.ne_none_iff_exists'.mp h4'
    obtain ⟨v5, hv5⟩ := Option.ne_none_iff_exists'.mp h5'
    obtain ⟨v6, hv6⟩ := Option.ne_none_iff_exists'.mp h6'
    obtain ⟨v7, hv7⟩ := Option.ne_none_iff_exists'.mp h7'
    unfold parseSegs
    simp [pyIdx, pyLookup, parseEntry, parseSubjective, toExcept,
      List.get?_eq_getElem?, h4, h0, h1, h2, h3, hn, htt, hm, hvi,
      hc0', hv0, hc1', hv1, hc2', hv2, hc3', hv3, hc4', hv4, hc5', hv5,
      hc6', hv6, hc7', hv7, hc8', hkp, Bind.bind, Except.bind]

/-- C4 witness: two concrete lines, one per kind of field — the income
text `Unspecified` is absent from `d_income` and its line fails with
`KeyError('Unspecified')`; the education text `Unknown` is absent from
`d_education` and its line fails with `KeyError('Unknown')`. -/
theorem c4_invalid_category_witness :
    (d_income.lookup "Unspecified" = none ∧
     parseSegs (pySplit '"' unspecifiedIncomeLine) =
       .error (.keyError "Unspecified")) ∧
    (d_education.lookup "Unknown" = none ∧
     parseSegs (pySplit '"' unknownEducationLine) =
       .error (.keyError "Unknown")) :=
  ⟨⟨by decide,
    (c4_invalid_category (pySplit '"' unspecifiedIncomeLine)
      ",College degree,No,No,No,Agree,Agree,Agree,Agree,Liberal\n"
      "#2," "July 12, 2021 09:41" ",7 / 10," "Unspecified"
      "College degree" "No" "No" "No" "Agree" "Agree" "Agree" "Agree"
      "Liberal\n"
      (by decide) (by decide) (by decide) (by decide) (by decide)
      (by decide) (by decide) (by decide) (by decide) (by decide)
      (by decide) (by decide) (by decide) (by decide) (by decide)
      (by decide) (by decide)).1 (by decide)⟩,
   ⟨by decide,
    (c4_invalid_category (pySplit '"' unknownEducationLine)
      ",Unknown,No,No,No,Agree,Agree,Agree,Agree,Liberal\n"
      "#7," "July 12, 2021 09:41" ",7 / 10," "$10,000 or less"
      "Unknown" "No" "No" "No" "Agree" "Agree" "Agree" "Agree"
      "Liberal\n"
      (by decide) (by decide) (by decide) (by decide) (by decide)
      (by decide) (by decide) (by decide) (by decide) (by decide)
      (by decide) (by decide) (by decide) (by decide) (by decide)
      (by decide) (by decide)).2.1 (by decide) (by decide)⟩⟩

/-- C5, as stated, is false on the code: the line whose subjective-status
segment is `,23 / 10,` parses successfully and produces a record whose
subjective-status value is 23, outside 1..10 — the residue is never
range-checked. -/
theorem c5_counterexample :
    parseLine outOfRangeLine = .ok outOfRangeRec ∧
    outOfRangeRec.subjective_SES = 23 ∧
    ¬ outOfRangeRec.subjective_SES ≤ 10 := by
  decide

/-- C5 (amended): a subjective-status residue that is non-numeric fails
with `int()`'s `ValueError` (provided the earlier fields parse), but an
integer residue is accepted without any 1..10 range check, so records with
out-of-range subjective-status values are produced. -/
theorem c5_nonnumeric_subjective (segs : List String) (s4 s0 s1 s2 : String)
    (h4 : segs[4]? = some s4) (h0 : segs[0]? = some s0)
    (h1 : segs[1]? = some s1) (h2 : segs[2]? = some s2)
    (he : (pyInt (pyStrip ['#', ','] s0)).isSome = true)
    (ht : (strptimeBdYHM s1).isSome = true)
    (hn : pyInt (subjValue s2) = none) :
    parseSegs segs = .error (intError (subjValue s2)) := by
  obtain ⟨n, hen⟩ := Option.isSome_iff_exists.mp he
  obtain ⟨t, htt⟩ := Option.isSome_iff_exists.mp ht
  unfold parseSegs
  simp [pyIdx, parseEntry, parseSubjective, toExcept,
    List.get?_eq_getElem?, h4, h0, h1, h2, hen, htt, hn,
    Bind.bind, Except.bind]

/-- C5 witness: on the line whose subjective segment is `,x / 10,`, the
stripped residue is the non-numeric `x` and the parse fails with the
`ValueError` of `int('x')`. -/
theorem c5_nonnumeric_subjective_witness :
    pyInt (subjValue ",x / 10,") = none ∧
    parseSegs (pySplit '"' nonNumericLine) =
      .error (intError (subjValue ",x / 10,")) :=
  ⟨by decide,
   c5_nonnumeric_subjective (pySplit '"' nonNumericLine)
     ",College degree,No,No,No,Agree,Agree,Agree,Agree,Liberal\n"
     "#6," "July 12, 2021 09:41" ",x / 10,"
     (by decide) (by decide) (by decide) (by decide)
     (by decide) (by decide) (by decide)⟩

/-- C6, as stated, is false on the code: the line with a sixth quoted
field splits into 7 quote-segments yet parses successfully — only a
segment count below 5 makes the parser fail. -/
theorem c6_counterexample :
    (pySplit '"' extraSegmentsLine).length = 7 ∧
    parseLine extraSegmentsLine = .ok extraSegmentsRec := by
  decide

/-- C6 (amended): a line whose quote-split yields fewer than 5 segments
fails with `IndexError` (at the access to segment 4); a split with more
than 5 segments is not rejected. -/
theorem c6_too_few_segments (line : String)
    (h : (pySplit '"' line).length < 5) :
    parseLine line = .error .indexError := by
  have h4 : (pySplit '"' line)[4]? = none := List.getElem?_eq_none (by omega)
  unfold parseLine parseSegs
  simp [pyIdx, toExcept, List.get?_eq_getElem?, h4, Bind.bind, Except.bind]

/-- C6 witness: the quote-free line splits into a single segment and its
parse fails with `IndexError`. -/
theorem c6_too_few_segments_witness :
    (pySplit '"' noQuoteLine).length < 5 ∧
    parseLine noQuoteLine = .error .indexError :=
  ⟨by decide, c6_too_few_segments noQuoteLine (by decide)⟩

/-- C7: after a load that completes without error, each of the thirteen
sequences has length equal to the number of input lines, and at every
index i each sequence holds the corresponding field of the record parsed
from line i (line order preserved). -/
theorem c7_parallel_sequences (lines : List String) (d : SurveyData)
    (h : importData lines = .ok d) :
    (d.entry.length = lines.length ∧
     d.response_time.length = lines.length ∧
     d.subjective_SES.length = lines.length ∧
     d.income.length = lines.length ∧
     d.education.length = lines.length ∧
     d.businesses.length = lines.length ∧
     d.rentals.length = lines.length ∧
     d.homes.length = lines.length ∧
     d.policy_1.length = lines.length ∧
     d.policy_2.length = lines.length ∧
     d.policy_3.length = lines.length ∧
     d.policy_4.length = lines.length ∧
     d.politics.length = lines.length) ∧
    ∀ (i : Nat) (line : String), lines[i]? = some line →
      ∃ r, parseLine line = .ok r ∧
        d.entry[i]? = some r.entry ∧
        d.response_time[i]? = some r.response_time ∧
        d.subjective_SES[i]? = some r.subjective_SES ∧
        d.income[i]? = some r.income ∧
        d.education[i]? = some r.education ∧
        d.businesses[i]? = some r.businesses ∧
        d.rentals[i]? = some r.rentals ∧
        d.homes[i]? = some r.homes ∧
        d.policy_1[i]? = some r.policy_1 ∧
        d.policy_2[i]? = some r.policy_2 ∧
        d.policy_3[i]? = some r.policy_3 ∧
        d.policy_4[i]? = some r.policy_4 ∧
        d.politics[i]? = some r.politics := by
  obtain ⟨rs, hp, hd⟩ := importData_ok h
  subst hd
  have hlen := parseAll_ok_length hp
  constructor
  · exact ⟨by simp [buildData, hlen], by simp [buildData, hlen],
      by simp [buildData, hlen], by simp [buildData, hlen],
      by simp [buildData, hlen], by simp [buildData, hlen],
      by simp [buildData, hlen], by simp [buildData, hlen],
      by simp [buildData, hlen], by simp [buildData, hlen],
      by simp [buildData, hlen], by simp [buildData, hlen],
      by simp [buildData, hlen]⟩
  · intro i line hl
    obtain ⟨r, hri, hr⟩ := parseAll_ok_get hp hl
    exact ⟨r, hr, by simp [buildData, hri], by simp [buildData, hri],
      by simp [buildData, hri], by simp [buildData, hri],
      by simp [buildData, hri], by simp [buildData, hri],
      by simp [buildData, hri], by simp [buildData, hri],
      by simp [buildData, hri], by simp [buildData, hri],
      by simp [buildData, hri], by simp [buildData, hri],
      by simp [buildData, hri]⟩

/-- C7 witness: the one-line file `[sampleLine]` loads successfully and
its entry sequence has length 1. -/
theorem c7_parallel_sequences_witness :
    importData [sampleLine] = .ok sampleData ∧
    sampleData.entry.length = 1 :=
  ⟨by decide,
   (c7_parallel_sequences [sampleLine] sampleData (by decide)).1.1⟩

/-- C8, as stated, is false on the code: on the file whose only line has
no quote character, parsing fails with `IndexError` and the exception
propagates past `f.close()`, leaving the file handle open. -/
theorem c8_counterexample :
    (importDataFile [noQuoteLine]).result = .error .indexError ∧
    (importDataFile [noQuoteLine]).fileClosed = false := by
  decide

/-- C8 (amended): the file handle is closed before scoring only on the
non-exceptional path — whenever every line parses, the loader returns the
dataset with the handle closed; there is no guaranteed release on error. -/
theorem c8_close_on_success (lines : List String) (d : SurveyData)
    (h : importData lines = .ok d) :
    importDataFile lines = ⟨.ok d, true⟩ := by
  unfold importDataFile
  rw [h]

/-- C8 witness: the one-line file `[sampleLine]` loads successfully and
the handle is closed. -/
theorem c8_close_on_success_witness :
    importData [sampleLine] = .ok sampleData ∧
    importDataFile [sampleLine] = ⟨.ok sampleData, true⟩ :=
  ⟨by decide, c8_close_on_success [sampleLine] sampleData (by decide)⟩

/-- C9, as stated, is false on the code: computing statistics over the
singleton sequence `[5]` does not fail — `scipy.stats.describe` returns a
`nan` sample variance (a degenerate placeholder), so the reported standard
deviation is `nan`. -/
theorem c9_counterexample :
    singleVariableStats [(5 : Int)] = .ok ((5, 5), (5 : ℚ), .nan) := by
  simp [singleVariableStats, describe, PyFloat.powHalf, Except.map]

/-- C9 (amended): an empty sequence fails with scipy's
`ValueError("The input must not be empty.")` (not an `InsufficientData`
error), while a length-1 sequence does not fail at all: its standard
deviation is the placeholder `nan`. -/
theorem c9_degenerate_stats :
    singleVariableStats ([] : List Int) =
      .error (.valueError "The input must not be empty.") ∧
    ∀ x : Int, singleVariableStats [x] = .ok ((x, x), (x : ℚ), .nan) := by
  constructor
  · decide
  · intro x
    simp [singleVariableStats, describe, PyFloat.powHalf, Except.map]

/-- C10: a line whose quote-split has more than 5 segments parses exactly
as the list of its first five segments does — all later segments are
ignored, and the line is accepted iff those five segments are valid. -/
theorem c10_ignore_extra_segments (line : String)
    (_h : 5 < (pySplit '"' line).length) :
    parseLine line = parseSegs ((pySplit '"' line).take 5) := by
  have e : ∀ k, k < 5 →
      ((pySplit '"' line).take 5).get? k = (pySplit '"' line).get? k := by
    intro k hk
    simp [List.get?_eq_getElem?, List.getElem?_take, hk]
  unfold parseLine
  simp only [parseSegs, pyIdx, e 0 (by omega), e 1 (by omega),
    e 2 (by omega), e 3 (by omega), e 4 (by omega)]

/-- C10 witness: on the 7-segment line, the parse equals the parse of its
first five segments. -/
theorem c10_ignore_extra_segments_witness :
    5 < (pySplit '"' extraSegmentsLine).length ∧
    parseLine extraSegmentsLine =
      parseSegs ((pySplit '"' extraSegmentsLine).take 5) :=
  ⟨by decide, c10_ignore_extra_segments extraSegmentsLine (by decide)⟩

end Survey
